import Mathlib

/-!
Verification development for the vector-addition simulation.

The geometric core of the repository is embedded shallowly:

* JS numbers that hold simulation state (tail positions, component
  magnitudes, scalars) are modelled as rationals, since every IEEE double
  is a rational number and all state-changing operations of the code are
  field operations.
* The transcendental derived values (magnitude via Math.sqrt, angle via
  Math.atan2) are modelled as real numbers; Math.atan2(y, x) is modelled
  by Complex.arg of the complex number with real part x and imaginary
  part y, which has exactly the atan2 range of (-pi, pi].
* Observable properties (axon Property / DerivedProperty) propagate
  synchronously, so a property is modelled by its current value and a
  derived property by a function of the primary state.
* Methods that throw are modelled with Except String.
-/

namespace VectorAddition

/-- Model of a DOT Vector2: a pair of coordinates. State coordinates are
rationals (every JS double is rational). -/
structure Vector2 where
  x : ℚ
  y : ℚ
deriving DecidableEq, Repr

namespace Vector2

/-- DOT Vector2.plus: componentwise addition, returning a fresh vector. -/
def plus (a b : Vector2) : Vector2 := ⟨a.x + b.x, a.y + b.y⟩

/-- DOT Vector2.setX: replace the x coordinate. -/
def setX (v : Vector2) (a : ℚ) : Vector2 := ⟨a, v.y⟩

/-- DOT Vector2.setY: replace the y coordinate. -/
def setY (v : Vector2) (a : ℚ) : Vector2 := ⟨v.x, a⟩

/-- DOT Vector2.multiplyScalar: multiply both coordinates by a scalar. -/
def multiplyScalar (v : Vector2) (s : ℚ) : Vector2 := ⟨v.x * s, v.y * s⟩

/-- DOT Vector2.getMagnitudeSquared: x*x + y*y. -/
def getMagnitudeSquared (v : Vector2) : ℚ := v.x * v.x + v.y * v.y

/-- DOT Vector2.getMagnitude: Math.sqrt of the squared magnitude. -/
noncomputable def getMagnitude (v : Vector2) : ℝ :=
  Real.sqrt ((v.getMagnitudeSquared : ℚ) : ℝ)

/-- DOT Vector2.getAngle: Math.atan2( y, x ), modelled by the argument of
the complex number x + y*i, whose range (-pi, pi] matches atan2. -/
noncomputable def getAngle (v : Vector2) : ℝ :=
  Complex.arg ⟨(v.x : ℝ), (v.y : ℝ)⟩

end Vector2

/-- DOT Util.toDegrees( radians ): 180 * radians / Math.PI. -/
noncomputable def toDegrees (radians : ℝ) : ℝ := 180 * radians / Real.pi

/-- JS Math.round: round half toward positive infinity, i.e. the floor of
the value plus one half. -/
def mathRound (q : ℚ) : ℤ := ⌊q + 1/2⌋

/-- DOT Util.roundSymmetric( value ): ( value < 0 ? -1 : 1 ) *
Math.round( Math.abs( value ) ), i.e. round half away from zero. -/
def roundSymmetric (q : ℚ) : ℤ := (if q < 0 then -1 else 1) * mathRound |q|

/-- DOT Vector2.roundedSymmetric: apply Util.roundSymmetric to each
coordinate of a copy. -/
def Vector2.roundedSymmetric (v : Vector2) : Vector2 :=
  ⟨(roundSymmetric v.x : ℤ), (roundSymmetric v.y : ℤ)⟩

/-- Model of BaseVectorModel (src/js/common/model/BaseVectorModel.js):
the primary state set by its constructor. The fields hold the current
values of tailPositionProperty and attributesVectorProperty; every other
property of the class is derived from them. -/
structure BaseVectorModel where
  label : String
  tailPosition : Vector2
  attributesVector : Vector2
deriving DecidableEq, Repr

namespace BaseVectorModel

/-- BaseVectorModel constructor (lines 32-51): tailPositionProperty holds
the given tail, attributesVectorProperty holds ( xMagnitude, yMagnitude ). -/
def mk' (tailPosition : Vector2) (xMagnitude yMagnitude : ℚ)
    (label : String) : BaseVectorModel :=
  ⟨label, tailPosition, ⟨xMagnitude, yMagnitude⟩⟩

/-- tipPositionProperty (lines 55-56): DerivedProperty computing
tailPosition.plus( vector ). -/
def tipPosition (v : BaseVectorModel) : Vector2 :=
  v.tailPosition.plus v.attributesVector

/-- magnitudeProperty (lines 60-62): DerivedProperty computing
attributesVector.getMagnitude(). -/
noncomputable def magnitudeProperty (v : BaseVectorModel) : ℝ :=
  v.attributesVector.getMagnitude

/-- angleDegreesProperty (lines 67-69): DerivedProperty computing
Util.toDegrees( attributesVector.getAngle() ). -/
noncomputable def angleDegreesProperty (v : BaseVectorModel) : ℝ :=
  toDegrees v.attributesVector.getAngle

/-- multiplyScalar (lines 92-95): replaces the attributes vector with
attributesVectorProperty.value.multiplyScalar( scalar ). -/
def multiplyScalar (v : BaseVectorModel) (scalar : ℚ) : BaseVectorModel :=
  { v with attributesVector := v.attributesVector.multiplyScalar scalar }

/-- get magnitude (line 103): the source reads
this.attributesVectorProperty.magnitude - a field access on the Property
wrapper object itself, not on its Vector2 value. The axon Property class
has no magnitude member, so in JS this access evaluates to undefined,
modelled here as none. -/
def magnitude (_ : BaseVectorModel) : Option ℝ := none

/-- set magnitude (lines 107-110): the source calls
this.attributesVectorProperty.value.setMagntude( magnitude ). DOT Vector2
has no method named setMagntude (the method is spelled setMagnitude), so
the member access yields undefined and the call raises a TypeError before
any assignment happens; modelled as an error. -/
def setMagnitude (_ : BaseVectorModel) (_ : ℚ) : Except String BaseVectorModel :=
  .error "setMagntude is not a function"

/-- get xMagnitude (line 118). -/
def xMagnitude (v : BaseVectorModel) : ℚ := v.attributesVector.x

/-- set xMagnitude (lines 123-126): attributesVector.setX( magnitude ). -/
def setXMagnitude (v : BaseVectorModel) (m : ℚ) : BaseVectorModel :=
  { v with attributesVector := v.attributesVector.setX m }

/-- get yMagnitude (line 134). -/
def yMagnitude (v : BaseVectorModel) : ℚ := v.attributesVector.y

/-- set yMagnitude (lines 139-142): attributesVector.setY( magnitude ). -/
def setYMagnitude (v : BaseVectorModel) (m : ℚ) : BaseVectorModel :=
  { v with attributesVector := v.attributesVector.setY m }

/-- get tail (line 151). -/
def tail (v : BaseVectorModel) : Vector2 := v.tailPosition

/-- get tailX (line 176). -/
def tailX (v : BaseVectorModel) : ℚ := v.tailPosition.x

/-- get tailY (line 192). -/
def tailY (v : BaseVectorModel) : ℚ := v.tailPosition.y

/-- get tip (line 208): tipPositionProperty.value. -/
def tip (v : BaseVectorModel) : Vector2 := v.tipPosition

/-- get tipX (line 209): tipPositionProperty.value.x. -/
def tipX (v : BaseVectorModel) : ℚ := v.tipPosition.x

/-- get tipY (line 210): the source reads tipPositionProperty.value.x -
the x coordinate, not the y coordinate. -/
def tipY (v : BaseVectorModel) : ℚ := v.tipPosition.x

/-- get angle (line 218): attributesVectorProperty.value.angle, the DOT
Vector2 angle getter, which returns getAngle() in radians. -/
noncomputable def angle (v : BaseVectorModel) : ℝ := v.attributesVector.getAngle

end BaseVectorModel

/-- Modelled from the spec: the ComponentStyles enumeration
(VECTOR_ADDITION/common/model/ComponentStyles is not under src/). The
spec lists exactly the four styles TRIANGLE, PARALLELOGRAM, ON_AXIS and
INVISIBLE. -/
inductive ComponentStyles where
  | TRIANGLE
  | PARALLELOGRAM
  | ON_AXIS
  | INVISIBLE
deriving DecidableEq, Repr

/-- Modelled from the spec: the VectorOrientations enumeration
(VECTOR_ADDITION/common/model/VectorOrientations is not under src/). The
spec lists exactly HORIZONTAL, VERTICAL and TWO_DIMENSIONAL. -/
inductive VectorOrientations where
  | HORIZONTAL
  | VERTICAL
  | TWO_DIMENSIONAL
deriving DecidableEq, Repr

/-- State of a VectorComponent: like BaseVectorModel it holds a tail
position and an attributes vector (VectorComponent extends
BaseVectorModel; YVectorComponent.updateComponent reads and writes
exactly these two properties). -/
structure VectorComponent where
  tailPosition : Vector2
  attributesVector : Vector2
deriving DecidableEq, Repr

/-- Modelled from the spec: the initial state of a vector component
(the VectorComponent constructor is not under src/). Per the spec the
perpendicular magnitude of a component is always zero and its on-axis
magnitude mirrors the parent, so a fresh component carries the zero
attributes vector until updateComponent fills it in. -/
def VectorComponent.initial : VectorComponent := ⟨⟨0, 0⟩, ⟨0, 0⟩⟩

/-- YVectorComponent.updateComponent
(src/js/common/model/YVectorComponent.js lines 26-54): a switch on the
component style. TRIANGLE and PARALLELOGRAM set the tail to the parent
tail; ON_AXIS sets the tail to ( 0, parentVector.tailY ); every case sets
this.yMagnitude = parentVector.yMagnitude (which replaces only the y
coordinate of the attributes vector); any other style value throws. -/
def YVectorComponent.updateComponent (c : VectorComponent)
    (parentVector : BaseVectorModel) (componentStyle : ComponentStyles) :
    Except String VectorComponent :=
  let parentTailPosition := parentVector.tailPosition
  match componentStyle with
  | .TRIANGLE =>
      .ok { c with tailPosition := parentTailPosition,
                   attributesVector := c.attributesVector.setY parentVector.yMagnitude }
  | .PARALLELOGRAM =>
      .ok { c with tailPosition := parentTailPosition,
                   attributesVector := c.attributesVector.setY parentVector.yMagnitude }
  | .ON_AXIS =>
      .ok { c with tailPosition := ⟨0, parentVector.tailY⟩,
                   attributesVector := c.attributesVector.setY parentVector.yMagnitude }
  | .INVISIBLE => .error "invalid componentStyle"

/-- VectorNode.tipSnapToGrid (src/unnamed/part_003 lines 225-245) after
the view-to-model transform: a switch on the vector orientation zeroes
the disallowed axis of the model-space tip coordinates (HORIZONTAL calls
setY( 0 ), VERTICAL calls setX( 0 ), TWO_DIMENSIONAL leaves them
unchanged), and the result is assigned
tipCoordinates.roundedSymmetric(). -/
def VectorNode.tipSnapToGrid (vectorOrientation : VectorOrientations)
    (tipCoordinates : Vector2) : Vector2 :=
  let tipCoordinates :=
    match vectorOrientation with
    | .HORIZONTAL => tipCoordinates.setY 0
    | .VERTICAL => tipCoordinates.setX 0
    | .TWO_DIMENSIONAL => tipCoordinates
  tipCoordinates.roundedSymmetric

/-- Model of VectorSet (src/unnamed/part_001) for its iteration method.
JS compares vectors by object identity, so vector objects are modelled by
references (natural numbers): vectors is the internal array of the axon
ObservableArray this.vectors, and vectorSum is the reference held in
this.vectorSum (a separate object, not placed in the array by the
constructor). -/
structure VectorSet where
  vectors : List Nat
  vectorSum : Nat
deriving DecidableEq, Repr

/-- VectorSet.forEachVector (src/unnamed/part_001 lines 55-64):
const combinedArray = this.vectors.getArray() returns the underlying
internal array of the axon ObservableArray (not a copy), so
combinedArray.push( this.vectorSum ) appends the sum to the internal
array itself. The subsequent this.vectors.forEach then iterates that
mutated array, calling callback( vector, this.vectorSum === vector ) on
each element. The result is the list of (argument, isSum flag) calls in
order, together with the vector set as it stands after the call. -/
def VectorSet.forEachVector (s : VectorSet) :
    List (Nat × Bool) × VectorSet :=
  let combinedArray := s.vectors ++ [s.vectorSum]
  (combinedArray.map fun vector => (vector, s.vectorSum == vector),
   { s with vectors := combinedArray })

/-- Modelled from the spec: the vector sum aggregation. The VectorSum
class (VECTOR_ADDITION/common/model/VectorSum, constructed by the
VectorSet constructor in src/unnamed/part_001 line 37) is not under
src/. Per the spec the sum vector stores components recomputed as a full
re-reduction over the current members whenever membership changes or a
member changes. The structure holds the member components together with
the stored components of the sum vector. -/
structure VectorSetSum where
  vectors : List Vector2
  sumComponents : Vector2
deriving DecidableEq, Repr

/-- Modelled from the spec: the full re-reduction of the sum over the
current members ( elementwise sum of all member components ). -/
def sumOfComponents (l : List Vector2) : Vector2 :=
  l.foldl Vector2.plus ⟨0, 0⟩

/-- Modelled from the spec: the operations on a vector set that trigger
sum recomputation - add( vector ), remove( vector ) (removes the first
structurally-equal entry) and a member component change. -/
inductive VectorSetOp where
  | add (c : Vector2)
  | remove (c : Vector2)
  | setComponents (i : Nat) (c : Vector2)
deriving DecidableEq, Repr

/-- Modelled from the spec: applying one operation to a vector set. The
membership is updated and the stored sum components are then eagerly
recomputed by a full re-reduction, synchronously within the same
operation. -/
def VectorSetSum.applyOp (s : VectorSetSum) : VectorSetOp → VectorSetSum
  | .add c =>
      let vs := s.vectors ++ [c]
      ⟨vs, sumOfComponents vs⟩
  | .remove c =>
      let vs := s.vectors.erase c
      ⟨vs, sumOfComponents vs⟩
  | .setComponents i c =>
      let vs := s.vectors.set i c
      ⟨vs, sumOfComponents vs⟩

/-! ## Helper lemmas -/

open Real

lemma foldl_plus_eq (l : List Vector2) : ∀ init : Vector2,
    l.foldl Vector2.plus init =
      ⟨init.x + (l.map Vector2.x).sum, init.y + (l.map Vector2.y).sum⟩ := by
  induction l with
  | nil => intro init; simp
  | cons h t ih =>
      intro init
      rw [List.foldl_cons, ih]
      simp only [Vector2.plus, List.map_cons, List.sum_cons, Vector2.mk.injEq]
      constructor <;> ring

lemma sumOfComponents_eq (l : List Vector2) :
    sumOfComponents l = ⟨(l.map Vector2.x).sum, (l.map Vector2.y).sum⟩ := by
  rw [sumOfComponents, foldl_plus_eq]
  simp

lemma sqrt_two_pos : (0 : ℝ) < Real.sqrt 2 := Real.sqrt_pos.mpr (by norm_num)

lemma arg_of_scaled_dir {θ r : ℝ} (hr : 0 < r) (hθ : θ ∈ Set.Ioc (-π) π) {z : ℂ}
    (hz : z = (r : ℂ) * (Complex.cos θ + Complex.sin θ * Complex.I)) :
    z.arg = θ := by
  rw [hz, Complex.arg_real_mul _ hr, Complex.arg_cos_add_sin_mul_I hθ]

lemma sqrt_two_mul_half : Real.sqrt 2 * (Real.sqrt 2 / 2) = 1 := by
  have h := Real.mul_self_sqrt (show (0 : ℝ) ≤ 2 by norm_num)
  nlinarith

lemma arg_one_one : Complex.arg ⟨1, 1⟩ = π / 4 := by
  apply arg_of_scaled_dir sqrt_two_pos
  · exact ⟨by have := Real.pi_pos; linarith, by have := Real.pi_pos; linarith⟩
  · rw [← Complex.ofReal_cos, ← Complex.ofReal_sin, Real.cos_pi_div_four,
      Real.sin_pi_div_four]
    apply Complex.ext <;> simp [Complex.mul_re, Complex.mul_im, sqrt_two_mul_half]

lemma arg_neg_one_one : Complex.arg ⟨-1, 1⟩ = 3 * π / 4 := by
  apply arg_of_scaled_dir sqrt_two_pos
  · exact ⟨by have := Real.pi_pos; linarith, by have := Real.pi_pos; linarith⟩
  · have hc : Real.cos (3 * π / 4) = -(Real.sqrt 2 / 2) := by
      rw [show 3 * π / 4 = π - π / 4 by ring, Real.cos_pi_sub, Real.cos_pi_div_four]
    have hs : Real.sin (3 * π / 4) = Real.sqrt 2 / 2 := by
      rw [show 3 * π / 4 = π - π / 4 by ring, Real.sin_pi_sub, Real.sin_pi_div_four]
    rw [← Complex.ofReal_cos, ← Complex.ofReal_sin, hc, hs]
    apply Complex.ext <;> simp [Complex.mul_re, Complex.mul_im, sqrt_two_mul_half]

lemma arg_neg_one_neg_one : Complex.arg ⟨-1, -1⟩ = -(3 * π / 4) := by
  apply arg_of_scaled_dir sqrt_two_pos
  · constructor
    · have := Real.pi_pos; linarith
    · have := Real.pi_pos; linarith
  · have hc : Real.cos (-(3 * π / 4)) = -(Real.sqrt 2 / 2) := by
      rw [Real.cos_neg, show 3 * π / 4 = π - π / 4 by ring, Real.cos_pi_sub,
        Real.cos_pi_div_four]
    have hs : Real.sin (-(3 * π / 4)) = -(Real.sqrt 2 / 2) := by
      rw [Real.sin_neg, show 3 * π / 4 = π - π / 4 by ring, Real.sin_pi_sub,
        Real.sin_pi_div_four]
    rw [← Complex.ofReal_cos, ← Complex.ofReal_sin, hc, hs]
    apply Complex.ext <;> simp [Complex.mul_re, Complex.mul_im, sqrt_two_mul_half]

lemma toDegrees_pi_div_four : toDegrees (π / 4) = 45 := by
  rw [toDegrees, div_eq_iff Real.pi_ne_zero]; ring

lemma toDegrees_three_pi_div_four : toDegrees (3 * π / 4) = 135 := by
  rw [toDegrees, div_eq_iff Real.pi_ne_zero]; ring

lemma toDegrees_neg_three_pi_div_four : toDegrees (-(3 * π / 4)) = -135 := by
  rw [toDegrees, div_eq_iff Real.pi_ne_zero]; ring

lemma toDegrees_pi : toDegrees π = 180 := by
  rw [toDegrees, div_eq_iff Real.pi_ne_zero]

lemma toDegrees_zero : toDegrees 0 = 0 := by
  rw [toDegrees]; simp

lemma getAngle_multiplyScalar {v : Vector2} {s : ℚ} (hs : 0 < s) :
    (v.multiplyScalar s).getAngle = v.getAngle := by
  rw [Vector2.getAngle, Vector2.getAngle, Vector2.multiplyScalar]
  have h : (⟨((v.x * s : ℚ) : ℝ), ((v.y * s : ℚ) : ℝ)⟩ : ℂ) =
      (((s : ℝ)) : ℂ) * ⟨(v.x : ℝ), (v.y : ℝ)⟩ := by
    apply Complex.ext
    · simp [Complex.mul_re]; ring
    · simp [Complex.mul_im]; ring
  rw [h, Complex.arg_real_mul _ (by exact_mod_cast hs)]

/-- Concrete parent vector used by witness statements: tail ( 3, 7 ),
components ( 2, 5 ). -/
def sampleParent : BaseVectorModel := BaseVectorModel.mk' ⟨3, 7⟩ 2 5 "v"

/-! ## Claims -/

/-- C1: for every vector set and every add / remove / member-component
operation, after the operation completes the stored components of the sum
vector equal the elementwise sum of the components of all vectors
currently in the set. -/
theorem C1_sum_reflects_membership (s : VectorSetSum) (op : VectorSetOp) :
    (s.applyOp op).sumComponents =
      ⟨((s.applyOp op).vectors.map Vector2.x).sum,
       ((s.applyOp op).vectors.map Vector2.y).sum⟩ := by
  cases op <;> simp [VectorSetSum.applyOp, sumOfComponents_eq]

/-- C2: the derived tip is tail plus components and tipX is its
x-coordinate, but the tipY accessor reads the x-coordinate of the tip, so
for tail ( 0, 0 ) and components ( 1, 2 ) it returns 1 while tail.y plus
components.y is 2. -/
theorem C2_tipY_reads_x :
    (∀ v : BaseVectorModel, v.tip = v.tailPosition.plus v.attributesVector) ∧
    (∀ v : BaseVectorModel, v.tipX = v.tailX + v.xMagnitude) ∧
    (∀ v : BaseVectorModel, v.tipY = v.tip.x) ∧
    (BaseVectorModel.mk' ⟨0, 0⟩ 1 2 "a").tipY = 1 ∧
    (BaseVectorModel.mk' ⟨0, 0⟩ 1 2 "a").tailY +
      (BaseVectorModel.mk' ⟨0, 0⟩ 1 2 "a").yMagnitude = 2 := by
  refine ⟨fun v => rfl, fun v => rfl, fun v => rfl, ?_, ?_⟩ <;>
    norm_num [BaseVectorModel.mk', BaseVectorModel.tipY, BaseVectorModel.tailY,
      BaseVectorModel.yMagnitude, BaseVectorModel.tipPosition, Vector2.plus]

/-- C3: the derived magnitude property is the square root of the sum of
the squared components (5 for components ( 3, 4 )), but the magnitude
accessor reads the nonexistent magnitude field of the Property wrapper
and therefore yields undefined. -/
theorem C3_magnitude_accessor_undefined :
    (∀ v : BaseVectorModel, v.magnitudeProperty =
      Real.sqrt ((v.attributesVector.x : ℝ) ^ 2 + (v.attributesVector.y : ℝ) ^ 2)) ∧
    (∀ v : BaseVectorModel, v.magnitude = none) ∧
    (BaseVectorModel.mk' ⟨0, 0⟩ 3 4 "a").magnitudeProperty = 5 := by
  refine ⟨fun v => ?_, fun v => rfl, ?_⟩
  · rw [BaseVectorModel.magnitudeProperty, Vector2.getMagnitude,
      Vector2.getMagnitudeSquared]
    congr 1
    push_cast
    ring
  · rw [BaseVectorModel.magnitudeProperty, Vector2.getMagnitude]
    rw [show (((BaseVectorModel.mk' ⟨0, 0⟩ 3 4 "a").attributesVector.getMagnitudeSquared : ℚ) : ℝ)
        = 5 ^ 2 by norm_num [BaseVectorModel.mk', Vector2.getMagnitudeSquared]]
    exact Real.sqrt_sq (by norm_num)

/-- C4 counterexample: the angle accessor does not return degrees - for
components ( 1, 1 ) it returns pi over four radians, which is not 45. -/
theorem C4_angle_accessor_not_degrees :
    BaseVectorModel.angle (BaseVectorModel.mk' ⟨0, 0⟩ 1 1 "a") ≠ 45 := by
  have h : BaseVectorModel.angle (BaseVectorModel.mk' ⟨0, 0⟩ 1 1 "a") = π / 4 := by
    rw [BaseVectorModel.angle, BaseVectorModel.mk']
    simp only [Vector2.getAngle, Rat.cast_one]
    exact arg_one_one
  rw [h]
  intro heq
  have h4 := Real.pi_le_four
  linarith

/-- C4 (amended): the derived angle property returns the atan2 angle of
the components expressed in degrees lying in ( -180, 180 ], with
components ( 1, 1 ) giving 45, ( -1, 1 ) giving 135 and ( -1, -1 )
giving -135; the angle accessor returns the same atan2 angle but in
radians, lying in ( -pi, pi ]. -/
theorem C4_angle_amended :
    (∀ v : BaseVectorModel, v.angleDegreesProperty ∈ Set.Ioc (-180 : ℝ) 180) ∧
    (∀ v : BaseVectorModel,
      v.angle ∈ Set.Ioc (-π) π ∧ v.angleDegreesProperty = toDegrees v.angle) ∧
    (BaseVectorModel.mk' ⟨0, 0⟩ 1 1 "a").angleDegreesProperty = 45 ∧
    (BaseVectorModel.mk' ⟨0, 0⟩ (-1) 1 "b").angleDegreesProperty = 135 ∧
    (BaseVectorModel.mk' ⟨0, 0⟩ (-1) (-1) "c").angleDegreesProperty = -135 := by
  have hπ := Real.pi_pos
  refine ⟨fun v => ?_, fun v => ⟨⟨Complex.neg_pi_lt_arg _, Complex.arg_le_pi _⟩, rfl⟩,
    ?_, ?_, ?_⟩
  · rw [BaseVectorModel.angleDegreesProperty, toDegrees]
    have h1 := Complex.neg_pi_lt_arg ⟨(v.attributesVector.x : ℝ), (v.attributesVector.y : ℝ)⟩
    have h2 := Complex.arg_le_pi ⟨(v.attributesVector.x : ℝ), (v.attributesVector.y : ℝ)⟩
    rw [Vector2.getAngle]
    constructor
    · rw [lt_div_iff₀ hπ]; nlinarith
    · rw [div_le_iff₀ hπ]; nlinarith
  · rw [BaseVectorModel.angleDegreesProperty, BaseVectorModel.mk']
    simp only [Vector2.getAngle, Rat.cast_one]
    rw [arg_one_one, toDegrees_pi_div_four]
  · rw [BaseVectorModel.angleDegreesProperty, BaseVectorModel.mk']
    simp only [Vector2.getAngle, Rat.cast_one, Rat.cast_neg]
    rw [arg_neg_one_one, toDegrees_three_pi_div_four]
  · rw [BaseVectorModel.angleDegreesProperty, BaseVectorModel.mk']
    simp only [Vector2.getAngle, Rat.cast_one, Rat.cast_neg]
    rw [arg_neg_one_neg_one, toDegrees_neg_three_pi_div_four]

/-- C5: after updateComponent, under TRIANGLE or PARALLELOGRAM the Y
component tail equals the parent tail, under ON_AXIS it equals
( 0, parent tailY ), and in all three styles the attributes vector is
( 0, parent yMagnitude ), given that the x magnitude of the component was
zero (its value from construction, which updateComponent never touches). -/
theorem C5_y_component_update (c : VectorComponent) (p : BaseVectorModel)
    (hx : c.attributesVector.x = 0) :
    YVectorComponent.updateComponent c p .TRIANGLE =
      .ok ⟨p.tailPosition, ⟨0, p.attributesVector.y⟩⟩ ∧
    YVectorComponent.updateComponent c p .PARALLELOGRAM =
      .ok ⟨p.tailPosition, ⟨0, p.attributesVector.y⟩⟩ ∧
    YVectorComponent.updateComponent c p .ON_AXIS =
      .ok ⟨⟨0, p.tailPosition.y⟩, ⟨0, p.attributesVector.y⟩⟩ := by
  refine ⟨?_, ?_, ?_⟩ <;>
    simp [YVectorComponent.updateComponent, Vector2.setY, BaseVectorModel.yMagnitude,
      BaseVectorModel.tailY, hx]

/-- C5 witness: the freshly constructed component has x magnitude zero and
updating it against the sample parent gives the stated tails and
attributes. -/
theorem C5_y_component_update_witness :
    VectorComponent.initial.attributesVector.x = 0 ∧
    (YVectorComponent.updateComponent VectorComponent.initial sampleParent .TRIANGLE =
      .ok ⟨sampleParent.tailPosition, ⟨0, sampleParent.attributesVector.y⟩⟩ ∧
    YVectorComponent.updateComponent VectorComponent.initial sampleParent .PARALLELOGRAM =
      .ok ⟨sampleParent.tailPosition, ⟨0, sampleParent.attributesVector.y⟩⟩ ∧
    YVectorComponent.updateComponent VectorComponent.initial sampleParent .ON_AXIS =
      .ok ⟨⟨0, sampleParent.tailPosition.y⟩, ⟨0, sampleParent.attributesVector.y⟩⟩) :=
  ⟨rfl, C5_y_component_update VectorComponent.initial sampleParent rfl⟩

/-- C6 counterexample: updating a Y vector component with the INVISIBLE
style is an error - the switch in updateComponent has no INVISIBLE case
and falls through to the throwing default. -/
theorem C6_invisible_throws :
    YVectorComponent.updateComponent VectorComponent.initial sampleParent .INVISIBLE =
      .error "invalid componentStyle" := rfl

/-- C6 (amended): YVectorComponent.updateComponent succeeds exactly for
the three geometric styles TRIANGLE, PARALLELOGRAM and ON_AXIS; every
other style value, INVISIBLE included, raises an error. -/
theorem C6_update_error_iff (c : VectorComponent) (p : BaseVectorModel)
    (style : ComponentStyles) :
    (YVectorComponent.updateComponent c p style).toOption.isSome = true ↔
      (style = .TRIANGLE ∨ style = .PARALLELOGRAM ∨ style = .ON_AXIS) := by
  cases style <;> simp [YVectorComponent.updateComponent, Except.toOption]

/-- C7: a tip drag update in model coordinates zeroes the disallowed axis
before rounding (HORIZONTAL forces y to 0, VERTICAL forces x to 0),
TWO_DIMENSIONAL applies no projection, and both axes are rounded half
away from zero, so the raw model tip delta ( 2.4, 2.6 ) under
TWO_DIMENSIONAL yields components ( 2, 3 ). -/
theorem C7_tip_snap :
    (∀ t : Vector2, (VectorNode.tipSnapToGrid .HORIZONTAL t).y = 0) ∧
    (∀ t : Vector2, (VectorNode.tipSnapToGrid .VERTICAL t).x = 0) ∧
    (∀ t : Vector2, VectorNode.tipSnapToGrid .TWO_DIMENSIONAL t = t.roundedSymmetric) ∧
    VectorNode.tipSnapToGrid .TWO_DIMENSIONAL ⟨2.4, 2.6⟩ = ⟨2, 3⟩ := by
  refine ⟨fun t => ?_, fun t => ?_, fun t => rfl, ?_⟩
  · norm_num [VectorNode.tipSnapToGrid, Vector2.setY, Vector2.roundedSymmetric,
      roundSymmetric, mathRound]
  · norm_num [VectorNode.tipSnapToGrid, Vector2.setX, Vector2.roundedSymmetric,
      roundSymmetric, mathRound]
  · norm_num [VectorNode.tipSnapToGrid, Vector2.roundedSymmetric, roundSymmetric,
      mathRound, abs_of_nonneg, Int.floor_eq_iff, Vector2.mk.injEq]

/-- C8: evaluating forEachVector on a set with one member (reference 7)
and sum vector (reference 9) visits the member with flag false and then
the sum with flag true, but afterwards the sum has become a member of the
collection, because the push lands on the internal array returned by
getArray. -/
theorem C8_forEachVector_mutates :
    VectorSet.forEachVector ⟨[7], 9⟩ = ([(7, false), (9, true)], ⟨[7, 9], 9⟩) ∧
    ((VectorSet.forEachVector ⟨[7], 9⟩).2.vectors.contains 9) = true := by
  exact ⟨rfl, rfl⟩

/-- C9 counterexample: multiplyScalar with the numeric argument -1 applied
to a vector with components ( 1, 0 ) changes the angle from 0 degrees to
180 degrees. -/
theorem C9_negative_scalar_flips_angle :
    (BaseVectorModel.multiplyScalar (BaseVectorModel.mk' ⟨0, 0⟩ 1 0 "a") (-1)).angleDegreesProperty
      = 180 ∧
    (BaseVectorModel.mk' ⟨0, 0⟩ 1 0 "a").angleDegreesProperty = 0 := by
  constructor
  · rw [BaseVectorModel.angleDegreesProperty]
    have h : ((BaseVectorModel.multiplyScalar (BaseVectorModel.mk' ⟨0, 0⟩ 1 0 "a") (-1)).attributesVector.getAngle) = π := by
      rw [Vector2.getAngle]
      rw [show (⟨(((BaseVectorModel.multiplyScalar (BaseVectorModel.mk' ⟨0, 0⟩ 1 0 "a") (-1)).attributesVector.x : ℚ) : ℝ),
          (((BaseVectorModel.multiplyScalar (BaseVectorModel.mk' ⟨0, 0⟩ 1 0 "a") (-1)).attributesVector.y : ℚ) : ℝ)⟩ : ℂ)
          = (-1 : ℂ) by
        apply Complex.ext <;>
          norm_num [BaseVectorModel.multiplyScalar, BaseVectorModel.mk', Vector2.multiplyScalar]]
      exact Complex.arg_neg_one
    rw [h, toDegrees_pi]
  · rw [BaseVectorModel.angleDegreesProperty]
    have h : ((BaseVectorModel.mk' ⟨0, 0⟩ 1 0 "a").attributesVector.getAngle) = 0 := by
      rw [Vector2.getAngle]
      rw [show (⟨(((BaseVectorModel.mk' ⟨0, 0⟩ 1 0 "a").attributesVector.x : ℚ) : ℝ),
          (((BaseVectorModel.mk' ⟨0, 0⟩ 1 0 "a").attributesVector.y : ℚ) : ℝ)⟩ : ℂ)
          = (1 : ℂ) by
        apply Complex.ext <;> norm_num [BaseVectorModel.mk']]
      exact Complex.arg_one
    rw [h, toDegrees_zero]

/-- C9 (amended): multiplyScalar with a positive scalar leaves the tail
position and the angle (radians and degrees) unchanged; the magnitude
setter calls the nonexistent method setMagntude and raises a TypeError
for every argument, so it never changes any state. -/
theorem C9_scale_preserves (v : BaseVectorModel) (s m : ℚ) (hs : 0 < s) :
    (v.multiplyScalar s).tail = v.tail ∧
    (v.multiplyScalar s).angle = v.angle ∧
    (v.multiplyScalar s).angleDegreesProperty = v.angleDegreesProperty ∧
    v.setMagnitude m = .error "setMagntude is not a function" := by
  refine ⟨rfl, ?_, ?_, rfl⟩
  · exact getAngle_multiplyScalar hs
  · rw [BaseVectorModel.angleDegreesProperty, BaseVectorModel.angleDegreesProperty]
    rw [show (v.multiplyScalar s).attributesVector = v.attributesVector.multiplyScalar s from rfl]
    rw [getAngle_multiplyScalar hs]

/-- C9 witness: scaling the sample parent by 2 keeps its tail and angle,
and the magnitude setter errors. -/
theorem C9_scale_preserves_witness :
    0 < (2 : ℚ) ∧
    ((sampleParent.multiplyScalar 2).tail = sampleParent.tail ∧
     (sampleParent.multiplyScalar 2).angle = sampleParent.angle ∧
     (sampleParent.multiplyScalar 2).angleDegreesProperty = sampleParent.angleDegreesProperty ∧
     sampleParent.setMagnitude 3 = .error "setMagntude is not a function") :=
  ⟨by norm_num, C9_scale_preserves sampleParent 2 3 (by norm_num)⟩

/-- C10: for any tail and label, a vector with components ( 0, 0 ) has a
well defined angle of 0 radians, hence 0 degrees, and a magnitude of 0. -/
theorem C10_zero_vector_total (t : Vector2) (label : String) :
    (BaseVectorModel.mk' t 0 0 label).angle = 0 ∧
    (BaseVectorModel.mk' t 0 0 label).angleDegreesProperty = 0 ∧
    (BaseVectorModel.mk' t 0 0 label).magnitudeProperty = 0 := by
  have hz : ((BaseVectorModel.mk' t 0 0 label).attributesVector.getAngle) = 0 := by
    rw [Vector2.getAngle]
    rw [show (⟨(((BaseVectorModel.mk' t 0 0 label).attributesVector.x : ℚ) : ℝ),
        (((BaseVectorModel.mk' t 0 0 label).attributesVector.y : ℚ) : ℝ)⟩ : ℂ)
        = (0 : ℂ) by apply Complex.ext <;> norm_num [BaseVectorModel.mk']]
    exact Complex.arg_zero
  refine ⟨hz, ?_, ?_⟩
  · rw [BaseVectorModel.angleDegreesProperty, hz, toDegrees_zero]
  · rw [BaseVectorModel.magnitudeProperty, Vector2.getMagnitude]
    rw [show (((BaseVectorModel.mk' t 0 0 label).attributesVector.getMagnitudeSquared : ℚ) : ℝ)
        = 0 by norm_num [BaseVectorModel.mk', Vector2.getMagnitudeSquared]]
    exact Real.sqrt_zero

end VectorAddition
